import Mathlib

/-!
Shallow embedding of the data-cleaning and presentation logic of
src/app.py (big-tech-stock-forecasting), together with proofs about it.

The program downloads daily price history, cleans it into a two-column
frame (timestamp, closing price), fits a forecasting model, and shows a
future-only table.  The embedding models:

* pandas float cells (NaN, infinities, finite values as rationals);
* the raw Date and Close columns before coercion;
* the cleaning pipeline of fetch_stock_data (lines 60-79 of app.py):
  MultiIndex flattening, column selection, to_datetime with coerce,
  astype(float), dropna, sort_values;
* the top-level script flow around the download (lines 82-103);
* the slider-derived horizon (lines 41-42);
* the future-only table (lines 115-118).

Integer timestamps stand for calendar dates (ordering is all that the
program uses of them).
-/

namespace StockApp

/-- A pandas floating-point cell: NaN, an infinity, or a finite value
(modelled as a rational number). -/
inductive FloatVal where
  | nan : FloatVal
  | inf : FloatVal
  | neginf : FloatVal
  | num : ℚ → FloatVal
deriving DecidableEq, Repr

/-- A raw entry of the Date column before pd.to_datetime with coerce:
either parseable, denoting a timestamp, or unparseable. -/
inductive RawDate where
  | parseable : ℤ → RawDate
  | unparseable : String → RawDate
deriving DecidableEq, Repr

/-- A raw entry of the Close column before astype(float): a float cell,
a missing entry (None, which astype turns into NaN), a string that the
Python float conversion accepts (carrying the float it denotes), or a
string that the conversion rejects (on which astype raises ValueError). -/
inductive RawClose where
  | fcell : FloatVal → RawClose
  | missing : RawClose
  | strOk : FloatVal → RawClose
  | strBad : String → RawClose
deriving DecidableEq, Repr

/-- Errors the cleaning pipeline can raise: KeyError from column
selection, ValueError from astype(float) on an unconvertible string. -/
inductive Err where
  | keyError : String → Err
  | valueError : String → Err
deriving DecidableEq, Repr

/-- A raw frame with simple (flat) column labels, restricted to the two
columns the pipeline consumes; each row is a (Date, Close) pair of raw
cells. -/
structure SimpleFrame where
  dateLab : String
  closeLab : String
  rows : List (RawDate × RawClose)
deriving DecidableEq, Repr

/-- A raw frame whose column labels are composite (pandas MultiIndex),
as yfinance returns for a single requested instrument: each label is a
pair (base field name, instrument). -/
structure MultiFrame where
  dateLab : String × String
  closeLab : String × String
  rows : List (RawDate × RawClose)
deriving DecidableEq, Repr

/-- A raw download result: simple or composite column labels. -/
inductive Raw where
  | simple : SimpleFrame → Raw
  | multi : MultiFrame → Raw
deriving DecidableEq, Repr

/-- Flattening composite labels to the base field name, as in
df.columns = df.columns.get_level_values(0)  (app.py line 64). -/
def MultiFrame.flatten (f : MultiFrame) : SimpleFrame :=
  { dateLab := f.dateLab.1, closeLab := f.closeLab.1, rows := f.rows }

/-- Column selection df[["Date", "Close"]] (app.py line 67): succeeds
exactly when the frame's labels are the base field names, otherwise a
KeyError. -/
def SimpleFrame.select (f : SimpleFrame) : Except Err (List (RawDate × RawClose)) :=
  if f.dateLab = "Date" then
    if f.closeLab = "Close" then .ok f.rows
    else .error (.keyError "Close")
  else .error (.keyError "Date")

/-- pd.to_datetime(col, errors="coerce") on one cell (app.py line 70):
an unparseable entry becomes NaT, modelled as none. -/
def to_datetime : RawDate → Option ℤ
  | .parseable t => some t
  | .unparseable _ => none

/-- astype(float) on one Close cell (app.py line 71): float cells pass
through, missing entries become NaN, convertible strings convert, and an
unconvertible string raises ValueError. -/
def astypeFloat : RawClose → Except Err FloatVal
  | .fcell v => .ok v
  | .missing => .ok .nan
  | .strOk v => .ok v
  | .strBad s => .error (.valueError s)

/-- Building one row of the two Prophet-format columns ds and y
(app.py lines 70-71): ds may be NaT, and astype may raise. -/
def buildRow (r : RawDate × RawClose) : Except Err (Option ℤ × FloatVal) :=
  (astypeFloat r.2).map (fun v => (to_datetime r.1, v))

/-- dropna on the two-column frame (app.py line 74): a row survives
exactly when ds is not NaT and y is not NaN; surviving rows keep their
values unchanged. -/
def dropna (rows : List (Option ℤ × FloatVal)) : List (ℤ × FloatVal) :=
  rows.filterMap fun r =>
    match r with
    | (some t, v) => if v = FloatVal.nan then none else some (t, v)
    | (none, _) => none

/-- The ordering used by df.sort_values("ds") (app.py line 77): compare
rows by their timestamp. -/
def dsLe (a b : ℤ × FloatVal) : Prop := a.1 ≤ b.1

instance : DecidableRel dsLe := fun a b => inferInstanceAs (Decidable (a.1 ≤ b.1))

instance : IsTotal (ℤ × FloatVal) dsLe := ⟨fun a b => Int.le_total a.1 b.1⟩

instance : IsTrans (ℤ × FloatVal) dsLe := ⟨fun _ _ _ h1 h2 => le_trans h1 h2⟩

/-- df.sort_values("ds") (app.py line 77): sort the rows ascending by
timestamp. -/
def sortByDs (rows : List (ℤ × FloatVal)) : List (ℤ × FloatVal) :=
  List.insertionSort dsLe rows

/-- The cleaning pipeline of fetch_stock_data (app.py lines 60-79),
applied to an already-downloaded raw frame: flatten MultiIndex labels,
select Date and Close, build ds and y, drop NaN/NaT rows, sort by ds.
Exceptions raised by a step propagate, aborting the later steps. -/
def fetch_stock_data (raw : Raw) : Except Err (List (ℤ × FloatVal)) :=
  let f := match raw with
    | .simple f => f
    | .multi f => f.flatten
  match f.select with
  | .error e => .error e
  | .ok rows =>
    match rows.mapM buildRow with
    | .error e => .error e
    | .ok built => .ok (sortByDs (dropna built))

/-- Whether astype(float) raises on this Close cell. -/
def isStrBad : RawClose → Bool
  | .strBad _ => true
  | _ => false

/-- The float astype(float) yields on a cell it accepts (NaN filler on a
rejected cell, never used under the no-rejected-cell hypotheses). -/
def astypeVal : RawClose → FloatVal
  | .fcell v => v
  | .missing => .nan
  | .strOk v => v
  | .strBad _ => .nan

/-- One raw row after the two coercions, when astype does not raise. -/
def rawToDs (r : RawDate × RawClose) : Option ℤ × FloatVal :=
  (to_datetime r.1, astypeVal r.2)

/-- A raw row survives the pipeline's dropna exactly when its date
parses and its value is an accepted, non-NaN float. -/
def rowUsable (r : RawDate × RawClose) : Bool :=
  match to_datetime r.1, astypeFloat r.2 with
  | some _, .ok v => decide (v ≠ FloatVal.nan)
  | _, _ => false

/-- The clean point a raw row contributes to the output, if any: none
when its date does not parse or its value is NaN. -/
def rowPoint (r : RawDate × RawClose) : Option (ℤ × FloatVal) :=
  match to_datetime r.1 with
  | some t =>
    if astypeVal r.2 = FloatVal.nan then none else some (t, astypeVal r.2)
  | none => none

/-- Strictly increasing timestamps with no duplicates, as the Series
invariant demands. -/
def strictlyIncreasingDs (out : List (ℤ × FloatVal)) : Prop :=
  List.Pairwise (fun a b => a.1 < b.1) out

instance (out : List (ℤ × FloatVal)) : Decidable (strictlyIncreasingDs out) :=
  inferInstanceAs
    (Decidable (List.Pairwise (fun a b : ℤ × FloatVal => a.1 < b.1) out))

/-- The PricePoint invariant on a value: finite (not NaN, not infinite)
and non-negative. -/
def FloatVal.finiteNonneg : FloatVal → Bool
  | .num q => decide (0 ≤ q)
  | _ => false

/-- Finiteness alone: the cell is an actual number. -/
def FloatVal.isFinite : FloatVal → Bool
  | .num _ => true
  | _ => false

/-- An already-normalized Series, re-presented to the pipeline as a raw
frame whose Date cells are the timestamps and whose Close cells are the
values. -/
def seriesFrame (l : List (ℤ × FloatVal)) : SimpleFrame :=
  { dateLab := "Date", closeLab := "Close",
    rows := l.map fun p => (RawDate.parseable p.1, RawClose.fcell p.2) }

/-- Slider lower bound for the forecast horizon in years
(app.py line 41). -/
def yearsMin : ℕ := 1

/-- Slider upper bound for the forecast horizon in years
(app.py line 41). -/
def yearsMax : ℕ := 5

/-- Slider default for the forecast horizon in years (app.py line 41). -/
def yearsDefault : ℕ := 2

/-- periods = years * 365 (app.py line 42): the number of future daily
periods handed to the forecasting collaborator. -/
def periods (years : ℕ) : ℕ := years * 365

/-- Observable outcome of one run of the top-level script: the error
message shown, if any, and whether the forecasting step ran. -/
structure Outcome where
  errorShown : Option String
  forecastRan : Bool
deriving DecidableEq, Repr

/-- The top-level script around the download (app.py lines 82-103): the
data source is modelled as the stream of results successive download
attempts would return.  The script makes exactly one attempt; on failure
it shows the error and stops (st.stop) before the forecasting step, on
success it proceeds to fit the model. -/
def runApp (attempts : ℕ → Except String (List (ℤ × FloatVal))) : Outcome :=
  match attempts 0 with
  | .error e => { errorShown := some e, forecastRan := false }
  | .ok _ => { errorShown := none, forecastRan := true }

/-- One row of the Prophet forecast frame, restricted to the columns the
future-only table keeps (app.py lines 116-118). -/
structure ForecastRow where
  ds : ℤ
  yhat : FloatVal
  yhat_lower : FloatVal
  yhat_upper : FloatVal
deriving DecidableEq, Repr

/-- last_date = data["ds"].max() (app.py line 115); none models NaT on
an empty history. -/
def lastDate (data : List (ℤ × FloatVal)) : Option ℤ :=
  (data.map Prod.fst).max?

/-- The future-only table forecast[forecast["ds"] > last_date]
(app.py lines 116-118); a comparison against NaT is always false, so an
empty history yields an empty table. -/
def future_forecast (forecast : List ForecastRow)
    (data : List (ℤ × FloatVal)) : List ForecastRow :=
  match lastDate data with
  | none => []
  | some m => forecast.filter fun r => m < r.ds

/-! Concrete inputs used by individual claims. -/

/-- The concrete raw input of the worked example: three rows, the middle
one with a NaN close. -/
def exampleRaw : Raw :=
  .simple
    { dateLab := "Date", closeLab := "Close",
      rows :=
        [(.parseable 20240102, .fcell (.num 100)),
         (.parseable 20240103, .fcell .nan),
         (.parseable 20240104, .fcell (.num 102))] }

/-- Two usable rows sharing one timestamp. -/
def dupFrame : SimpleFrame :=
  { dateLab := "Date", closeLab := "Close",
    rows :=
      [(.parseable 0, .fcell (.num 1)),
       (.parseable 0, .fcell (.num 2))] }

/-- A one-row frame with a usable row. -/
def oneGoodFrame : SimpleFrame :=
  { dateLab := "Date", closeLab := "Close",
    rows := [(.parseable 1, .fcell (.num 3))] }

/-- A frame in which no row is usable: an unparseable date, a NaN close,
a missing close. -/
def allInvalidFrame : SimpleFrame :=
  { dateLab := "Date", closeLab := "Close",
    rows :=
      [(.unparseable "n/a", .fcell (.num 1)),
       (.parseable 0, .fcell .nan),
       (.parseable 1, .missing)] }

/-- A one-row frame whose only row has a NaN close. -/
def oneNanFrame : SimpleFrame :=
  { dateLab := "Date", closeLab := "Close",
    rows := [(.parseable 5, .fcell .nan)] }

/-- A frame containing a Close string the float conversion rejects,
next to a perfectly good row. -/
def strBadFrame : SimpleFrame :=
  { dateLab := "Date", closeLab := "Close",
    rows :=
      [(.parseable 0, .strBad "abc"),
       (.parseable 1, .fcell (.num 100))] }

/-- A frame with one good row and one missing close. -/
def oneMissingFrame : SimpleFrame :=
  { dateLab := "Date", closeLab := "Close",
    rows :=
      [(.parseable 2, .fcell (.num 7)),
       (.parseable 1, .missing)] }

/-- A frame whose values break the PricePoint invariant while surviving
the pipeline: a negative close and an infinite close. -/
def badValueFrame : SimpleFrame :=
  { dateLab := "Date", closeLab := "Close",
    rows :=
      [(.parseable 0, .fcell (.num (-5))),
       (.parseable 1, .fcell .inf)] }

/-- A one-row frame used by the not-NaN witness. -/
def oneRowFrame : SimpleFrame :=
  { dateLab := "Date", closeLab := "Close",
    rows := [(.parseable 1, .fcell (.num 3))] }

/-- An already-normalized two-point series. -/
def normalSeries : List (ℤ × FloatVal) := [(0, .num 1), (3, .num 2)]

/-- A download oracle whose every attempt fails. -/
def failingAttempts : ℕ → Except String (List (ℤ × FloatVal)) :=
  fun _ => .error "connection refused"

/-- Concrete history for the future-table witness. -/
def c10Data : List (ℤ × FloatVal) := [(0, FloatVal.num 1)]

/-- Concrete forecast rows for the future-table witness: one past the
history, one inside it. -/
def c10Fcst : List ForecastRow :=
  [{ ds := 5, yhat := .num 2, yhat_lower := .num 1, yhat_upper := .num 3 },
   { ds := 0, yhat := .num 1, yhat_lower := .num 0, yhat_upper := .num 2 }]

/-- The forecast row past the history. -/
def c10Row : ForecastRow :=
  { ds := 5, yhat := .num 2, yhat_lower := .num 1, yhat_upper := .num 3 }

/-! Helper lemmas about the pipeline. -/

/-- On a cell astype accepts, astypeFloat succeeds with astypeVal. -/
theorem astypeFloat_eq_ok (c : RawClose) (h : isStrBad c = false) :
    astypeFloat c = .ok (astypeVal c) := by
  cases c <;> simp [astypeFloat, astypeVal, isStrBad] at h ⊢

/-- Column-wise astype over rows without rejected cells succeeds and
acts row-wise. -/
theorem mapM_buildRow_ok (rows : List (RawDate × RawClose))
    (h : ∀ r ∈ rows, isStrBad r.2 = false) :
    rows.mapM buildRow = .ok (rows.map rawToDs) := by
  induction rows with
  | nil => rfl
  | cons a l ih =>
    have ha := astypeFloat_eq_ok a.2 (h a (List.mem_cons_self a l))
    have hl := ih (fun r hr => h r (List.mem_cons_of_mem a hr))
    rw [List.mapM_cons, hl]
    simp [buildRow, ha, rawToDs]
    rfl

/-- Membership in the dropna output: exactly the non-NaT, non-NaN rows,
with their values unchanged. -/
theorem mem_dropna_iff (p : ℤ × FloatVal) (l : List (Option ℤ × FloatVal)) :
    p ∈ dropna l ↔ (some p.1, p.2) ∈ l ∧ p.2 ≠ FloatVal.nan := by
  constructor
  · intro h
    obtain ⟨a, ha, hfa⟩ := List.mem_filterMap.mp h
    obtain ⟨o, v⟩ := a
    cases o with
    | none => simp at hfa
    | some t =>
      dsimp only at hfa
      by_cases hv : v = FloatVal.nan
      · rw [if_pos hv] at hfa
        cases hfa
      · rw [if_neg hv] at hfa
        obtain ⟨⟩ := hfa
        exact ⟨ha, hv⟩
  · intro ⟨ha, hv⟩
    refine List.mem_filterMap.mpr ⟨(some p.1, p.2), ha, ?_⟩
    show (if p.2 = FloatVal.nan then none else some (p.1, p.2)) = some p
    rw [if_neg hv]

/-- dropna after the row-wise coercions is the row-wise filterMap of
rowPoint. -/
theorem dropna_map_rawToDs (rows : List (RawDate × RawClose)) :
    dropna (rows.map rawToDs) = rows.filterMap rowPoint := by
  induction rows with
  | nil => rfl
  | cons a l ih =>
    simp only [List.map_cons, dropna, List.filterMap_cons] at ih ⊢
    cases hdt : to_datetime a.1 with
    | none => simpa [rawToDs, rowPoint, hdt] using ih
    | some t =>
      by_cases hv : astypeVal a.2 = FloatVal.nan <;>
        simpa [rawToDs, rowPoint, hdt, hv] using ih

/-- The pipeline on a simple frame with the right labels and no rejected
cells: select, coerce, dropna, sort. -/
theorem fetch_simple_eq (f : SimpleFrame)
    (hd : f.dateLab = "Date") (hc : f.closeLab = "Close")
    (hnb : ∀ r ∈ f.rows, isStrBad r.2 = false) :
    fetch_stock_data (Raw.simple f) =
      .ok (sortByDs (dropna (f.rows.map rawToDs))) := by
  have hsel : f.select = .ok f.rows := by
    simp [SimpleFrame.select, hd, hc]
  simp only [fetch_stock_data, hsel, mapM_buildRow_ok f.rows hnb]

/-- A successful pipeline output is the sort of a dropna output. -/
theorem fetch_ok_inv (raw : Raw) (out : List (ℤ × FloatVal))
    (h : fetch_stock_data raw = .ok out) :
    ∃ built, out = sortByDs (dropna built) := by
  unfold fetch_stock_data at h
  rcases raw with f | f <;> dsimp only at h <;>
  · cases h1 : SimpleFrame.select _ with
    | error e => rw [h1] at h; cases h
    | ok rows =>
      rw [h1] at h
      dsimp only at h
      cases h2 : rows.mapM buildRow with
      | error e => rw [h2] at h; cases h
      | ok built =>
        rw [h2] at h
        dsimp only at h
        exact ⟨built, (Except.ok.inj h).symm⟩

/-- A value the pipeline keeps is never NaN. -/
theorem mem_dropna_ne_nan (p : ℤ × FloatVal) (l : List (Option ℤ × FloatVal))
    (h : p ∈ dropna l) : p.2 ≠ FloatVal.nan :=
  ((mem_dropna_iff p l).mp h).2

/-- A finite float is not NaN. -/
theorem isFinite_ne_nan (v : FloatVal) (h : v.isFinite = true) :
    v ≠ FloatVal.nan := by
  cases v <;> simp [FloatVal.isFinite] at h ⊢

/-- dropna of the coercions of all-unusable rows is empty. -/
theorem dropna_map_nil (rows : List (RawDate × RawClose))
    (hall : ∀ r ∈ rows, rowUsable r = false)
    (hnb : ∀ r ∈ rows, isStrBad r.2 = false) :
    dropna (rows.map rawToDs) = [] := by
  rw [dropna_map_rawToDs]
  rw [List.filterMap_eq_nil_iff]
  intro r hr
  have ha := astypeFloat_eq_ok r.2 (hnb r hr)
  have hu := hall r hr
  unfold rowUsable at hu
  rw [ha] at hu
  unfold rowPoint
  cases hdt : to_datetime r.1 with
  | none => rfl
  | some t =>
    rw [hdt] at hu
    simp only [decide_eq_false_iff_not, not_not] at hu
    dsimp only
    rw [if_pos hu]

/-- dropna leaves an all-valid two-column list unchanged. -/
theorem dropna_map_valid (l : List (ℤ × FloatVal))
    (h : ∀ p ∈ l, p.2 ≠ FloatVal.nan) :
    dropna (l.map fun p => (some p.1, p.2)) = l := by
  induction l with
  | nil => rfl
  | cons a t ih =>
    simp only [List.map_cons, dropna, List.filterMap_cons] at ih ⊢
    rw [if_neg (h a (List.mem_cons_self a t))]
    rw [ih (fun p hp => h p (List.mem_cons_of_mem a hp))]

/-! The claims. -/

/-- C5: on the raw input ((2024-01-02, 100.0), (2024-01-03, NaN),
(2024-01-04, 102.0)) the cleaning pipeline returns exactly
((2024-01-02, 100.0), (2024-01-04, 102.0)): the NaN row is dropped and
the two valid rows are kept in chronological order. -/
theorem fetch_example_drops_nan :
    fetch_stock_data exampleRaw =
      .ok [(20240102, FloatVal.num 100), (20240104, FloatVal.num 102)] := by
  rfl

/-- C6: on an input with composite (MultiIndex) column labels for a
single instrument, the cleaning pipeline returns exactly what it
returns on the same input with the labels already flattened to the base
field names. -/
theorem fetch_multi_eq_fetch_flattened (mf : MultiFrame) :
    fetch_stock_data (Raw.multi mf) = fetch_stock_data (Raw.simple mf.flatten) :=
  rfl

/-- C9: for every slider-selectable horizon, the years lie between 1 and
5 inclusive and the number of future periods handed to the forecasting
collaborator is years * 365, hence between 365 and 1825. -/
theorem horizon_periods_bounds (y : ℕ) (h1 : yearsMin ≤ y) (h2 : y ≤ yearsMax) :
    periods y = y * 365 ∧ 365 ≤ periods y ∧ periods y ≤ 1825 := by
  refine ⟨rfl, ?_, ?_⟩ <;>
    · simp only [periods, yearsMin, yearsMax] at *
      omega

/-- Witness for C9 at the slider default of 2 years. -/
theorem horizon_periods_bounds_witness :
    periods yearsDefault = yearsDefault * 365 ∧
      365 ≤ periods yearsDefault ∧ periods yearsDefault ≤ 1825 :=
  horizon_periods_bounds yearsDefault (by decide) (by decide)

/-- C8: if the single download attempt fails, the script surfaces the
error to the user and the forecasting step does not run; moreover the
run depends only on the first attempt, so no retry is made within the
request. -/
theorem download_failure_halts
    (attempts : ℕ → Except String (List (ℤ × FloatVal))) (e : String)
    (h : attempts 0 = .error e) :
    (runApp attempts).errorShown = some e ∧
      (runApp attempts).forecastRan = false ∧
      ∀ attempts2, attempts2 0 = attempts 0 → runApp attempts2 = runApp attempts := by
  refine ⟨?_, ?_, ?_⟩
  · simp [runApp, h]
  · simp [runApp, h]
  · intro attempts2 h2
    simp [runApp, h2]

/-- Witness for C8 on a failing download. -/
theorem download_failure_halts_witness :
    (runApp failingAttempts).errorShown = some "connection refused" ∧
      (runApp failingAttempts).forecastRan = false :=
  ⟨(download_failure_halts failingAttempts "connection refused" rfl).1,
   (download_failure_halts failingAttempts "connection refused" rfl).2.1⟩

/-- C10: every row of the future-only table has a timestamp strictly
greater than the maximum timestamp of the historical series, hence
strictly greater than every historical timestamp: no historical-range
prediction appears in the table. -/
theorem future_forecast_after_history
    (fcst : List ForecastRow) (data : List (ℤ × FloatVal)) (r : ForecastRow)
    (hr : r ∈ future_forecast fcst data) :
    (∃ m, lastDate data = some m ∧ m < r.ds) ∧ ∀ p ∈ data, p.1 < r.ds := by
  unfold future_forecast at hr
  cases h : lastDate data with
  | none => rw [h] at hr; cases hr
  | some m =>
    rw [h] at hr
    have hm : m < r.ds := by
      have := (List.mem_filter.mp hr).2
      exact of_decide_eq_true this
    refine ⟨⟨m, rfl, hm⟩, ?_⟩
    intro p hp
    have hle : p.1 ≤ m := by
      have hiff := List.max?_le_iff (fun a b c => max_le_iff) h (x := m)
      exact hiff.mp le_rfl p.1 (List.mem_map_of_mem Prod.fst hp)
    exact lt_of_le_of_lt hle hm

/-- Witness for C10 on the concrete history and forecast. -/
theorem future_forecast_after_history_witness :
    ((0 : ℤ), FloatVal.num 1) ∈ c10Data ∧ (0 : ℤ) < c10Row.ds :=
  ⟨by decide,
   (future_forecast_after_history c10Fcst c10Data c10Row (by decide)).2
     (0, FloatVal.num 1) (by decide)⟩

/-- C1 counterexample: two usable rows sharing a timestamp, one of them
with a finite non-negative value; the pipeline keeps both, so the output
has a duplicate timestamp and is not strictly increasing. -/
theorem fetch_duplicate_ts_counterexample :
    (∀ r ∈ dupFrame.rows, isStrBad r.2 = false) ∧
      rowUsable (RawDate.parseable 0, RawClose.fcell (FloatVal.num 1)) = true ∧
      FloatVal.finiteNonneg (FloatVal.num 1) = true ∧
      fetch_stock_data (Raw.simple dupFrame) =
        .ok [(0, FloatVal.num 1), (0, FloatVal.num 2)] ∧
      ¬ strictlyIncreasingDs [(0, FloatVal.num 1), (0, FloatVal.num 2)] :=
  ⟨by decide, by decide, by decide, by rfl, by decide⟩

/-- C1 (amended): for every simple frame with the base labels, no
astype-rejected cell, and at least one usable row, the pipeline succeeds
with a non-empty output sorted non-decreasingly by timestamp (duplicate
timestamps are not removed). -/
theorem fetch_nonempty_sorted (f : SimpleFrame)
    (hd : f.dateLab = "Date") (hc : f.closeLab = "Close")
    (hnb : ∀ r ∈ f.rows, isStrBad r.2 = false)
    (r0 : RawDate × RawClose) (hr0 : r0 ∈ f.rows) (hu : rowUsable r0 = true) :
    ∃ out, fetch_stock_data (Raw.simple f) = .ok out ∧ out ≠ [] ∧
      List.Sorted dsLe out := by
  refine ⟨_, fetch_simple_eq f hd hc hnb, ?_, List.sorted_insertionSort dsLe _⟩
  have ha := astypeFloat_eq_ok r0.2 (hnb r0 hr0)
  unfold rowUsable at hu
  rw [ha] at hu
  cases hdt : to_datetime r0.1 with
  | none => rw [hdt] at hu; cases hu
  | some t =>
    rw [hdt] at hu
    have hv : astypeVal r0.2 ≠ FloatVal.nan := of_decide_eq_true hu
    have hmem : (t, astypeVal r0.2) ∈ dropna (f.rows.map rawToDs) := by
      refine (mem_dropna_iff _ _).mpr ⟨?_, hv⟩
      have : rawToDs r0 = (some t, astypeVal r0.2) := by
        unfold rawToDs; rw [hdt]
      exact this ▸ List.mem_map_of_mem rawToDs hr0
    have : (t, astypeVal r0.2) ∈ sortByDs (dropna (f.rows.map rawToDs)) := by
      unfold sortByDs
      exact (List.mem_insertionSort dsLe).mpr hmem
    exact List.ne_nil_of_mem this

/-- Witness for the amended C1 on a one-row frame. -/
theorem fetch_nonempty_sorted_witness :
    fetch_stock_data (Raw.simple oneGoodFrame) ≠ Except.ok [] := by
  obtain ⟨out, hout, hne, _⟩ :=
    fetch_nonempty_sorted oneGoodFrame rfl rfl (by decide)
      (RawDate.parseable 1, RawClose.fcell (FloatVal.num 3)) (by decide) (by decide)
  intro h
  rw [hout] at h
  exact hne (Except.ok.inj h)

/-- C2 counterexample: an input in which no row is usable, on which the
pipeline nonetheless succeeds and returns the empty series instead of
raising a no-usable-data error. -/
theorem fetch_all_invalid_counterexample :
    (∀ r ∈ allInvalidFrame.rows, rowUsable r = false) ∧
      fetch_stock_data (Raw.simple allInvalidFrame) = .ok [] :=
  ⟨by decide, by rfl⟩

/-- C2 (amended): on every all-invalid input (base labels, no
astype-rejected cell, no usable row) the pipeline succeeds and returns
the empty series; no error is raised for emptiness. -/
theorem fetch_all_invalid_ok_empty (f : SimpleFrame)
    (hd : f.dateLab = "Date") (hc : f.closeLab = "Close")
    (hnb : ∀ r ∈ f.rows, isStrBad r.2 = false)
    (hall : ∀ r ∈ f.rows, rowUsable r = false) :
    fetch_stock_data (Raw.simple f) = .ok [] := by
  rw [fetch_simple_eq f hd hc hnb, dropna_map_nil f.rows hall hnb]
  rfl

/-- Witness for the amended C2 on a one-NaN-row frame. -/
theorem fetch_all_invalid_ok_empty_witness :
    fetch_stock_data (Raw.simple oneNanFrame) = .ok [] :=
  fetch_all_invalid_ok_empty oneNanFrame rfl rfl (by decide) (by decide)

/-- C3 counterexample: a value entry the float conversion rejects makes
the whole pipeline raise ValueError instead of succeeding without that
row. -/
theorem fetch_unconvertible_raises :
    fetch_stock_data (Raw.simple strBadFrame) =
      .error (Err.valueError "abc") := by
  rfl

/-- C3 (amended): when every value entry is convertible or missing (no
entry the float conversion rejects), the pipeline succeeds and its
output consists of exactly the usable rows' points, each unchanged:
rows with missing or NaN values (and unparseable dates) are absent, all
other rows present. -/
theorem fetch_drops_exactly_unusable (f : SimpleFrame)
    (hd : f.dateLab = "Date") (hc : f.closeLab = "Close")
    (hnb : ∀ r ∈ f.rows, isStrBad r.2 = false) :
    ∃ out, fetch_stock_data (Raw.simple f) = .ok out ∧
      out.Perm (f.rows.filterMap rowPoint) := by
  refine ⟨_, fetch_simple_eq f hd hc hnb, ?_⟩
  rw [dropna_map_rawToDs]
  exact List.perm_insertionSort dsLe _

/-- Witness for the amended C3: a missing value is dropped and the good
row kept. -/
theorem fetch_drops_exactly_unusable_witness :
    List.Perm [((2 : ℤ), FloatVal.num 7)] (oneMissingFrame.rows.filterMap rowPoint) := by
  obtain ⟨out, hout, hperm⟩ :=
    fetch_drops_exactly_unusable oneMissingFrame rfl rfl (by decide)
  have h2 : fetch_stock_data (Raw.simple oneMissingFrame) =
      .ok [((2 : ℤ), FloatVal.num 7)] := by rfl
  rw [hout] at h2
  exact (Except.ok.inj h2) ▸ hperm

/-- C4 counterexample: a negative close and an infinite close survive
the pipeline, so an output value can violate the finite-and-non-negative
PricePoint invariant. -/
theorem fetch_invariant_violating_values :
    fetch_stock_data (Raw.simple badValueFrame) =
      .ok [(0, FloatVal.num (-5)), (1, FloatVal.inf)] ∧
      FloatVal.finiteNonneg (FloatVal.num (-5)) = false ∧
      FloatVal.finiteNonneg FloatVal.inf = false :=
  ⟨by rfl, by decide, by decide⟩

/-- C4 (amended): every value in a successful pipeline output is
non-NaN; finiteness and non-negativity are not enforced. -/
theorem fetch_output_values_not_nan (raw : Raw) (out : List (ℤ × FloatVal))
    (hout : fetch_stock_data raw = .ok out) (p : ℤ × FloatVal) (hp : p ∈ out) :
    p.2 ≠ FloatVal.nan := by
  obtain ⟨built, rfl⟩ := fetch_ok_inv raw out hout
  exact mem_dropna_ne_nan p built ((List.mem_insertionSort dsLe).mp hp)

/-- Witness for the amended C4 on a one-row frame. -/
theorem fetch_output_values_not_nan_witness :
    ((1 : ℤ), FloatVal.num 3).2 ≠ FloatVal.nan :=
  fetch_output_values_not_nan (Raw.simple oneRowFrame) [(1, FloatVal.num 3)]
    (by rfl) (1, FloatVal.num 3) (by decide)

/-- C7: the pipeline is idempotent: an already-normalized Series (finite
values, strictly increasing timestamps), re-presented as a raw frame,
comes back unchanged. -/
theorem fetch_idempotent (l : List (ℤ × FloatVal))
    (hfin : ∀ p ∈ l, p.2.isFinite = true)
    (hinc : strictlyIncreasingDs l) :
    fetch_stock_data (Raw.simple (seriesFrame l)) = .ok l := by
  have hnb : ∀ r ∈ (seriesFrame l).rows, isStrBad r.2 = false := by
    intro r hr
    obtain ⟨p, _, rfl⟩ := List.mem_map.mp hr
    rfl
  rw [fetch_simple_eq (seriesFrame l) rfl rfl hnb]
  have hmap : (seriesFrame l).rows.map rawToDs = l.map fun p => (some p.1, p.2) := by
    unfold seriesFrame
    rw [List.map_map]
    rfl
  rw [hmap, dropna_map_valid l (fun p hp => isFinite_ne_nan p.2 (hfin p hp))]
  have hsorted : List.Sorted dsLe l := by
    exact List.Pairwise.imp (fun h => le_of_lt h) hinc
  unfold sortByDs
  rw [List.Sorted.insertionSort_eq hsorted]

/-- Witness for C7 on a two-point normalized series. -/
theorem fetch_idempotent_witness :
    fetch_stock_data (Raw.simple (seriesFrame normalSeries)) = .ok normalSeries :=
  fetch_idempotent normalSeries (by decide) (by decide)

end StockApp
